import Mathlib

/-!
Verification development for the probeye correlated Gaussian likelihood engine.

The repository sources available under src/ contain the sensor data model
(src/probeye/definition/sensor.py) and the unit tests of the likelihood
engine; the engine itself (probeye/definition/likelihood_model.py and
probeye/inference/scipy/likelihood_models.py) is not present.  Definitions
for the engine are therefore modelled from the specification (spec.md) and
marked as such; the sensor embedding is translated from the source file.

Conventions
* Names of sensors, experiments and parameters are modelled as natural
  numbers; correlation-variable letters x, y, z, t as the inductive
  `CorrVar`; numeric experiment data as rationals (`Value`).
* A scalar log-likelihood that may be negative infinity is modelled as
  `Option ℝ`, with `none` standing for the value -infinity.
-/

namespace Probeye

/-- Numeric value attached to a sensor or correlation variable in an
experiment: either a scalar or a vector of numbers. -/
inductive Value
  | scalar (v : ℚ)
  | vector (vs : List ℚ)
deriving DecidableEq

/-- Correlation-variable letters: the alphabet x, y, z, t of the
`correlation_variables` string of a likelihood model. -/
inductive CorrVar
  | x
  | y
  | z
  | t
deriving DecidableEq

/-- Kernel (correlation model) name: only the exponential kernel is a
recognized name; every other requested name is unrecognized. -/
inductive KernelName
  | exp
  | unrecognized (code : ℕ)
deriving DecidableEq

/-- Value accepted for the model-error argument of the likelihood-model
constructor: the two recognized names, or an unrecognized one. -/
inductive ModelErrorName
  | additive
  | multiplicative
  | unrecognized (code : ℕ)
deriving DecidableEq

/-- Configuration errors raised at likelihood-model spec construction. -/
inductive ConfigError
  | invalidModelError
  | unknownCorrelationModel
deriving DecidableEq

/-- Modelled from the spec: the declarative `GaussianLikelihoodModel`
record (probeye/definition/likelihood_model.py is not under src/): target
parameters, sensors and experiments, the three error flags, the ordered
correlation variables and the kernel name. -/
structure GaussianLikelihoodModel where
  name : ℕ
  prmsDef : List ℕ
  sensors : List ℕ
  experimentNames : List ℕ
  additiveModelError : Bool
  multiplicativeModelError : Bool
  additiveMeasurementError : Bool
  correlationVariables : List CorrVar
  correlationModel : KernelName

/-- Modelled from the spec: resolution of the model-error argument into
the pair of flags (additive, multiplicative).  A recognized name forces
the corresponding flag; with no name given, exactly one of the two flags
must be set, otherwise a configuration error is raised. -/
def resolveModelErrorFlags :
    Option ModelErrorName → Bool → Bool → Except ConfigError (Bool × Bool)
  | some .additive, _, _ => .ok (true, false)
  | some .multiplicative, _, _ => .ok (false, true)
  | some (.unrecognized _), _, _ => .error .invalidModelError
  | none, true, false => .ok (true, false)
  | none, false, true => .ok (false, true)
  | none, _, _ => .error .invalidModelError

/-- Modelled from the spec: validation of the requested correlation model;
only the exponential kernel is supported, any other name is a
configuration error. -/
def processCorrelationDefinition (k : KernelName) : Except ConfigError Unit :=
  match k with
  | .exp => .ok ()
  | .unrecognized _ => .error .unknownCorrelationModel

/-- Modelled from the spec: construction of a `GaussianLikelihoodModel`
spec.  Both configuration checks (model-error flags, kernel name) run here,
at construction, before any evaluator exists or any evaluation happens. -/
def mkGaussianLikelihoodModel (nm : ℕ) (prms sensors exps : List ℕ)
    (modelError : Option ModelErrorName) (additive multiplicative meas : Bool)
    (cv : List CorrVar) (k : KernelName) :
    Except ConfigError GaussianLikelihoodModel :=
  match resolveModelErrorFlags modelError additive multiplicative with
  | .error e => .error e
  | .ok (a, m) =>
    match processCorrelationDefinition k with
    | .error e => .error e
    | .ok _ => .ok ⟨nm, prms, sensors, exps, a, m, meas, cv, k⟩

/-- The five structural classes of evaluators. -/
inductive StructClass
  | uncorrelated
  | correlated1D
  | spaceCorrelated2D3D
  | spaceTimeCorrelated1D
  | spaceTimeCorrelated2D3D
deriving DecidableEq

/-- The model-error variant of an evaluator. -/
inductive ModelErrorVariant
  | additive
  | multiplicative
deriving DecidableEq

/-- Errors of the translation step. -/
inductive TranslateError
  | unsupportedCorrelation
  | invalidModelErrorFlags
deriving DecidableEq

/-- Modelled from the spec: structural classification of the declared
correlation variables (section 4.3 of the spec): the number of distinct
spatial letters together with the presence of the temporal letter selects
the structural class. -/
def classifyCorrelation (cv : List CorrVar) : Except TranslateError StructClass :=
  match ((cv.filter fun c => c ≠ CorrVar.t).dedup).length, cv.contains CorrVar.t with
  | 0, false => .ok .uncorrelated
  | 0, true => .ok .correlated1D
  | 1, false => .ok .correlated1D
  | 1, true => .ok .spaceTimeCorrelated1D
  | 2, false => .ok .spaceCorrelated2D3D
  | 2, true => .ok .spaceTimeCorrelated2D3D
  | _, _ => .error .unsupportedCorrelation

/-- Modelled from the spec: `translate_likelihood_model`
(probeye/inference/scipy/likelihood_models.py is not under src/): a pure
function of the declared correlation variables and the two model-error
flags, returning the concrete evaluator class. -/
def translateLikelihoodModel (lm : GaussianLikelihoodModel) :
    Except TranslateError (StructClass × ModelErrorVariant) :=
  match classifyCorrelation lm.correlationVariables with
  | .error e => .error e
  | .ok sc =>
    match lm.additiveModelError, lm.multiplicativeModelError with
    | true, false => .ok (sc, .additive)
    | false, true => .ok (sc, .multiplicative)
    | _, _ => .error .invalidModelErrorFlags

/-- Is the value a vector? -/
def Value.isVectorB : Value → Bool
  | .vector _ => true
  | .scalar _ => false

/-- Is the value a scalar? -/
def Value.isScalarB : Value → Bool
  | .scalar _ => true
  | .vector _ => false

/-- Modelled from the spec: the resolved correlation data an evaluator is
constructed from.  `axes` lists the declared correlation axes, a
multidimensional (tuple) axis listing its one-dimensional components;
`resolve` gives, per experiment, sensor and component, the experiment's
own value for that component, or `none` when the component does not
appear in the experiment's correlation-axis mapping. -/
structure CorrelationData where
  axes : List (List CorrVar)
  sensors : List ℕ
  experiments : List ℕ
  resolve : ℕ → ℕ → CorrVar → Option Value

/-- Structural errors raised at evaluator construction. -/
inductive StructuralError
  | missingCorrelationVariable
  | scalarMismatch
  | mixedTuple
  | twoVectorAxes
  | noVectorAxis
deriving DecidableEq

/-- Modelled from the spec: a component of a declared axis is missing from
the correlation-axis mapping of a targeted experiment for a targeted
sensor. -/
def missingAxisB (d : CorrelationData) : Bool :=
  d.experiments.any fun e => d.sensors.any fun s =>
    d.axes.any fun ax => ax.any fun c => (d.resolve e s c).isNone

/-- Modelled from the spec: some scalar component value differs
numerically between two experiments targeted by the same evaluator. -/
def scalarMismatchB (d : CorrelationData) : Bool :=
  d.axes.any fun ax => ax.any fun c => d.sensors.any fun s =>
    d.experiments.any fun e1 => d.experiments.any fun e2 =>
      match d.resolve e1 s c, d.resolve e2 s c with
      | some (.scalar v1), some (.scalar v2) => v1 != v2
      | _, _ => false

/-- Modelled from the spec: a declared axis is vector-resolved when one of
its components carries vector data for some targeted sensor and
experiment. -/
def vectorAxisB (d : CorrelationData) (ax : List CorrVar) : Bool :=
  ax.any fun c => d.sensors.any fun s => d.experiments.any fun e =>
    match d.resolve e s c with
    | some (.vector _) => true
    | _ => false

/-- Modelled from the spec: within one declared (tuple) axis, components
resolve to scalars and vectors at the same time for one sensor and
experiment, which is not a usable structure. -/
def mixedTupleB (d : CorrelationData) : Bool :=
  d.axes.any fun ax => d.sensors.any fun s => d.experiments.any fun e =>
    (ax.any fun c => (d.resolve e s c).elim false Value.isScalarB)
      && (ax.any fun c => (d.resolve e s c).elim false Value.isVectorB)

/-- Modelled from the spec: two distinct declared axes are both
vector-resolved, so no single ordering axis exists. -/
def twoVectorAxesB (d : CorrelationData) : Bool :=
  d.axes.any fun ax1 => d.axes.any fun ax2 =>
    ax1 != ax2 && vectorAxisB d ax1 && vectorAxisB d ax2

/-- Modelled from the spec: correlation axes are declared but none of them
is vector-resolved, so there is no ordering axis at all. -/
def noVectorAxisB (d : CorrelationData) : Bool :=
  !d.axes.isEmpty && d.axes.all fun ax => !vectorAxisB d ax

/-- Modelled from the spec: the structural validation performed when the
chosen evaluator is constructed (section 4.2 of the spec).  All checks run
at construction; a failure is an error, never a deferred or -infinity
outcome. -/
def validateCorrelationStructure (d : CorrelationData) :
    Except StructuralError Unit :=
  if missingAxisB d then .error .missingCorrelationVariable
  else if scalarMismatchB d then .error .scalarMismatch
  else if mixedTupleB d then .error .mixedTuple
  else if twoVectorAxesB d then .error .twoVectorAxes
  else if noVectorAxisB d then .error .noVectorAxis
  else .ok ()

/-- Modelled from the spec: construction of the concrete evaluator from
its class and resolved correlation data; the structural validation runs
here and a failing check prevents the evaluator from being produced. -/
def constructEvaluator (cls : StructClass × ModelErrorVariant)
    (d : CorrelationData) :
    Except StructuralError ((StructClass × ModelErrorVariant) × CorrelationData) :=
  match validateCorrelationStructure d with
  | .error e => .error e
  | .ok _ => .ok (cls, d)

/-- Association-list lookup with decidable key equality. -/
def alookup {α β : Type} [DecidableEq α] (k : α) : List (α × β) → Option β
  | [] => none
  | (k', v) :: rest => if k = k' then some v else alookup k rest

/-- Association-list update: replaces any binding of the key. -/
def aupdate {α β : Type} [DecidableEq α] (l : List (α × β)) (k : α) (v : β) :
    List (α × β) :=
  (k, v) :: l.filter fun p => p.1 != k

/-- Modelled from the spec: `len_or_one` of probeye.subroutines (not under
src/), documented as the length of a vector value and 1 for a scalar. -/
def lenOrOne : Value → ℕ
  | .scalar _ => 1
  | .vector vs => vs.length

/-- The sensor data model, translated from
src/probeye/definition/sensor.py.  A sensor is a dictionary (experiment
name to measured value, the field `data`) with additional attributes:
coordinate attributes (the x/y/z properties, modelled as the partial map
`coords` from attribute name to value, `none` when the attribute does not
exist or is None), the `correlated_in` keys (each key a tuple of
one-dimensional correlation-variable names), and the recorded
correlation-vector lengths per experiment.  Inner length-dictionary keys
are `Option ℕ`, with `none` standing for the empty-string key used when no
correlation is declared. -/
structure Sensor where
  name : ℕ
  coords : ℕ → Option Value
  correlatedIn : List (List ℕ)
  corrVarLengths : List (ℕ × List (Option ℕ × ℕ))
  data : List (ℕ × Value)

/-- The inner length dictionary recorded for one experiment by
`Sensor.__setitem__`: with no declared correlation, the single
empty-string entry holding the measurement's length; otherwise one entry
per declared one-dimensional component, holding the length of the
sensor's own coordinate attribute of that name when it exists and is not
None, and the measurement's length otherwise. -/
def Sensor.corrLengthEntry (s : Sensor) (v : Value) : List (Option ℕ × ℕ) :=
  if s.correlatedIn.isEmpty then [(none, lenOrOne v)]
  else s.correlatedIn.flatten.map fun c =>
    (some c,
      match s.coords c with
      | some cv => lenOrOne cv
      | none => lenOrOne v)

/-- `Sensor.__setitem__` from src/probeye/definition/sensor.py: stores the
measured value under the experiment name and records the correlation
vector lengths for that experiment. -/
def Sensor.setItem (s : Sensor) (expName : ℕ) (v : Value) : Sensor :=
  { s with
    corrVarLengths := aupdate s.corrVarLengths expName (s.corrLengthEntry v)
    data := aupdate s.data expName v }

open Matrix

open scoped Kronecker

open Classical

/-- Modelled from the spec: the exponential correlation kernel, mapping a
distance and a correlation length to exp(-distance/length). -/
noncomputable def expKernel (l d : ℝ) : ℝ := Real.exp (-d / l)

/-- Correlation matrix of the exponential kernel over a one-dimensional
axis with absolute-difference distances. -/
noncomputable def expCorrMatrix {n : ℕ} (l : ℝ) (x : Fin n → ℝ) :
    Matrix (Fin n) (Fin n) ℝ :=
  Matrix.of fun i j => expKernel l |x i - x j|

/-- Euclidean distance between two points of a multidimensional spatial
axis. -/
noncomputable def euclid {dim : ℕ} (a b : Fin dim → ℝ) : ℝ :=
  Real.sqrt (∑ c, (a c - b c) ^ 2)

/-- Correlation matrix of the exponential kernel over a multidimensional
spatial axis with Euclidean distances. -/
noncomputable def expCorrMatrixSpace {n dim : ℕ} (l : ℝ)
    (p : Fin n → Fin dim → ℝ) : Matrix (Fin n) (Fin n) ℝ :=
  Matrix.of fun i j => expKernel l (euclid (p i) (p j))

/-- Modelled from the spec: the numeric domain of one loglike call.  The
model-error standard deviation must be positive, the measurement-error
standard deviation must be positive whenever measurement error is
enabled, and every declared correlation length must be positive. -/
def validNoise (stdM : ℝ) (measErr : Bool) (stdMeas : ℝ)
    (lengths : List ℝ) : Prop :=
  0 < stdM ∧ (measErr = true → 0 < stdMeas) ∧ ∀ l ∈ lengths, 0 < l

/-- Generic multivariate-normal log-density of a residual vector under a
covariance matrix, the reference (dense, Cholesky-style) evaluation:
-(1/2) (n log(2 pi) + log det Sigma + r' Sigma^-1 r). -/
noncomputable def mvnLoglike {ι : Type} [Fintype ι] [DecidableEq ι]
    (cov : Matrix ι ι ℝ) (r : ι → ℝ) : ℝ :=
  -(1/2) * ((Fintype.card ι : ℝ) * Real.log (2 * Real.pi)
    + Real.log cov.det + r ⬝ᵥ (cov⁻¹ *ᵥ r))

/-- Modelled from the spec, section 4.4: the covariance built from a
correlation matrix.  Additive mode scales the correlation by the squared
model-error deviation; multiplicative mode additionally scales by the
outer product of the model response; enabled measurement error always
adds an independent diagonal term. -/
noncomputable def modelCov {ι : Type} [Fintype ι] [DecidableEq ι]
    (mult measErr : Bool) (R : Matrix ι ι ℝ) (resp : ι → ℝ)
    (stdM stdMeas : ℝ) : Matrix ι ι ℝ :=
  Matrix.of (fun i j => (if mult then resp i * resp j else 1) * stdM ^ 2 * R i j)
    + (if measErr then stdMeas ^ 2 else 0) • (1 : Matrix ι ι ℝ)

/-- Diagonal covariance entry of the uncorrelated evaluators. -/
noncomputable def uncorrSigma2 (mult measErr : Bool)
    (stdM stdMeas resp : ℝ) : ℝ :=
  (if mult then (resp * stdM) ^ 2 else stdM ^ 2)
    + (if measErr then stdMeas ^ 2 else 0)

/-- Modelled from the spec: the Uncorrelated evaluators (additive and
multiplicative model error selected by `mult`), closed-form diagonal
log-likelihood; `none` models a -infinity return for out-of-domain noise
parameters. -/
noncomputable def uncorrelatedLoglike (mult measErr : Bool) {n : ℕ}
    (resp meas : Fin n → ℝ) (stdM stdMeas : ℝ) : Option ℝ :=
  if validNoise stdM measErr stdMeas [] then
    some (-(1/2) * ((n : ℝ) * Real.log (2 * Real.pi)
      + ∑ i, Real.log (uncorrSigma2 mult measErr stdM stdMeas (resp i))
      + ∑ i, (meas i - resp i) ^ 2
            / uncorrSigma2 mult measErr stdM stdMeas (resp i)))
  else none

/-- Nearest-neighbour correlation coefficients of the exponential kernel
along an ordered one-dimensional axis. -/
noncomputable def rho1D (l : ℝ) {n : ℕ} (x : Fin (n + 1) → ℝ) (i : Fin n) : ℝ :=
  expKernel l (x i.succ - x i.castSucc)

/-- Closed-form log-determinant of the Correlated1D covariance: the
product formula of the exponential-kernel correlation matrix. -/
noncomputable def corr1DLogdet (stdM l : ℝ) {n : ℕ} (x : Fin (n + 1) → ℝ) : ℝ :=
  ((n + 1 : ℕ) : ℝ) * Real.log (stdM ^ 2)
    + ∑ i, Real.log (1 - rho1D l x i ^ 2)

/-- Closed-form quadratic form of the Correlated1D precision matrix, in
innovations form, as computed by the O(n) tridiagonal recursion. -/
noncomputable def corr1DQuad (stdM l : ℝ) {n : ℕ} (x r : Fin (n + 1) → ℝ) : ℝ :=
  (r 0 ^ 2 + ∑ i : Fin n,
      (r i.succ - rho1D l x i * r i.castSucc) ^ 2 / (1 - rho1D l x i ^ 2))
    / stdM ^ 2

/-- Modelled from the spec: the Correlated1D evaluators.  The additive
variant without measurement error evaluates through the closed-form
tridiagonal routine; the other variants evaluate the multivariate-normal
density of the full covariance of section 4.4. -/
noncomputable def correlated1DLoglike (mult measErr : Bool) {n : ℕ}
    (x resp meas : Fin (n + 1) → ℝ) (stdM stdMeas l : ℝ) : Option ℝ :=
  if validNoise stdM measErr stdMeas [l] then
    some (
      if mult || measErr then
        mvnLoglike (modelCov mult measErr (expCorrMatrix l x) resp stdM stdMeas)
          (fun i => meas i - resp i)
      else
        -(1/2) * (((n + 1 : ℕ) : ℝ) * Real.log (2 * Real.pi)
          + corr1DLogdet stdM l x
          + corr1DQuad stdM l x fun i => meas i - resp i))
  else none

/-- Modelled from the spec: the SpatialCorrelated2D3D evaluators, dense
kernel matrix over Euclidean distances with Cholesky-style evaluation. -/
noncomputable def spaceCorrelated2D3DLoglike (mult measErr : Bool) {n dim : ℕ}
    (pts : Fin n → Fin dim → ℝ) (resp meas : Fin n → ℝ)
    (stdM stdMeas l : ℝ) : Option ℝ :=
  if validNoise stdM measErr stdMeas [l] then
    some (mvnLoglike
      (modelCov mult measErr (expCorrMatrixSpace l pts) resp stdM stdMeas)
      (fun i => meas i - resp i))
  else none

/-- Generalized Kronecker quadratic form: the factorized computation of
r' (P kron Q) r over the residual matrix, costing nested small sums
instead of one dense product. -/
noncomputable def kronQuad {m k : ℕ} (P : Matrix (Fin m) (Fin m) ℝ)
    (Q : Matrix (Fin k) (Fin k) ℝ) (R : Fin m → Fin k → ℝ) : ℝ :=
  ∑ i, ∑ i', P i i' * ∑ j, ∑ j', Q j j' * R i j * R i' j'

/-- Log-likelihood through the Kronecker factorization: factor
log-determinants combined by size, and the factorized quadratic form of
the factor inverses. -/
noncomputable def kronFastLoglike {m k : ℕ} (A : Matrix (Fin m) (Fin m) ℝ)
    (B : Matrix (Fin k) (Fin k) ℝ) (R : Fin m → Fin k → ℝ) : ℝ :=
  -(1/2) * (((m * k : ℕ) : ℝ) * Real.log (2 * Real.pi)
    + ((k : ℝ) * Real.log A.det + (m : ℝ) * Real.log B.det)
    + kronQuad A⁻¹ B⁻¹ R)

/-- Modelled from the spec: the SpaceTimeCorrelated1D evaluators, the
spatial factor built from scalar channel positions and the temporal
factor from the shared time vector; the additive variant without
measurement error evaluates through the Kronecker factorization. -/
noncomputable def spaceTimeCorrelated1DLoglike (mult measErr : Bool)
    {ns nt : ℕ} (xs : Fin ns → ℝ) (ts : Fin nt → ℝ)
    (resp meas : Fin ns → Fin nt → ℝ) (stdM stdMeas ls lt : ℝ) : Option ℝ :=
  if validNoise stdM measErr stdMeas [ls, lt] then
    some (
      if mult || measErr then
        mvnLoglike
          (modelCov mult measErr (expCorrMatrix ls xs ⊗ₖ expCorrMatrix lt ts)
            (fun p => resp p.1 p.2) stdM stdMeas)
          (fun p => meas p.1 p.2 - resp p.1 p.2)
      else
        kronFastLoglike (stdM ^ 2 • expCorrMatrix ls xs) (expCorrMatrix lt ts)
          fun i j => meas i j - resp i j)
  else none

/-- Modelled from the spec: the SpaceTimeCorrelated2D3D evaluators, the
spatial factor a dense kernel matrix over the channel coordinates and the
temporal factor from the shared time vector; the additive variant without
measurement error evaluates through the Kronecker factorization. -/
noncomputable def spaceTimeCorrelated2D3DLoglike (mult measErr : Bool)
    {ns nt dim : ℕ} (pts : Fin ns → Fin dim → ℝ) (ts : Fin nt → ℝ)
    (resp meas : Fin ns → Fin nt → ℝ) (stdM stdMeas ls lt : ℝ) : Option ℝ :=
  if validNoise stdM measErr stdMeas [ls, lt] then
    some (
      if mult || measErr then
        mvnLoglike
          (modelCov mult measErr
            (expCorrMatrixSpace ls pts ⊗ₖ expCorrMatrix lt ts)
            (fun p => resp p.1 p.2) stdM stdMeas)
          (fun p => meas p.1 p.2 - resp p.1 p.2)
      else
        kronFastLoglike (stdM ^ 2 • expCorrMatrixSpace ls pts)
          (expCorrMatrix lt ts) fun i j => meas i j - resp i j)
  else none

theorem validNoise_not_iff (stdM : ℝ) (measErr : Bool) (stdMeas : ℝ)
    (L : List ℝ) :
    ¬ validNoise stdM measErr stdMeas L ↔
      stdM ≤ 0 ∨ (measErr = true ∧ stdMeas ≤ 0) ∨ ∃ l ∈ L, l ≤ 0 := by
  simp only [validNoise, not_and_or, not_lt, Classical.not_imp, not_forall]

theorem ite_some_none_eq_none {P : Prop} [Decidable P] {x : ℝ} :
    (if P then some x else none) = none ↔ ¬ P := by
  split_ifs with h <;> simp [h]

/-- C1: for every evaluator in the family, a loglike call returns
negative infinity (modelled as `none`) exactly when the model-error
standard deviation is non-positive, or measurement error is enabled and
its standard deviation is non-positive, or a declared correlation length
is non-positive; out-of-domain numeric parameters yield this return value
instead of an exception, since every evaluator is a total function into
`Option ℝ`. -/
theorem loglike_neg_infinity_iff :
    (∀ (mult measErr : Bool) (n : ℕ) (resp meas : Fin n → ℝ)
       (stdM stdMeas : ℝ),
      uncorrelatedLoglike mult measErr resp meas stdM stdMeas = none ↔
        stdM ≤ 0 ∨ (measErr = true ∧ stdMeas ≤ 0))
    ∧ (∀ (mult measErr : Bool) (n : ℕ) (x resp meas : Fin (n + 1) → ℝ)
         (stdM stdMeas l : ℝ),
        correlated1DLoglike mult measErr x resp meas stdM stdMeas l = none ↔
          stdM ≤ 0 ∨ (measErr = true ∧ stdMeas ≤ 0) ∨ l ≤ 0)
    ∧ (∀ (mult measErr : Bool) (n dim : ℕ) (pts : Fin n → Fin dim → ℝ)
         (resp meas : Fin n → ℝ) (stdM stdMeas l : ℝ),
        spaceCorrelated2D3DLoglike mult measErr pts resp meas stdM stdMeas l
            = none ↔
          stdM ≤ 0 ∨ (measErr = true ∧ stdMeas ≤ 0) ∨ l ≤ 0)
    ∧ (∀ (mult measErr : Bool) (ns nt : ℕ) (xs : Fin ns → ℝ)
         (ts : Fin nt → ℝ) (resp meas : Fin ns → Fin nt → ℝ)
         (stdM stdMeas ls lt : ℝ),
        spaceTimeCorrelated1DLoglike mult measErr xs ts resp meas
            stdM stdMeas ls lt = none ↔
          stdM ≤ 0 ∨ (measErr = true ∧ stdMeas ≤ 0) ∨ ls ≤ 0 ∨ lt ≤ 0)
    ∧ (∀ (mult measErr : Bool) (ns nt dim : ℕ) (pts : Fin ns → Fin dim → ℝ)
         (ts : Fin nt → ℝ) (resp meas : Fin ns → Fin nt → ℝ)
         (stdM stdMeas ls lt : ℝ),
        spaceTimeCorrelated2D3DLoglike mult measErr pts ts resp meas
            stdM stdMeas ls lt = none ↔
          stdM ≤ 0 ∨ (measErr = true ∧ stdMeas ≤ 0) ∨ ls ≤ 0 ∨ lt ≤ 0) := by
  refine ⟨?_, ?_, ?_, ?_, ?_⟩ <;> intros <;>
    simp only [uncorrelatedLoglike, correlated1DLoglike,
      spaceCorrelated2D3DLoglike, spaceTimeCorrelated1DLoglike,
      spaceTimeCorrelated2D3DLoglike, ite_some_none_eq_none,
      validNoise_not_iff] <;> simp

/-- C5: the translator selects the concrete evaluator class from the
declared correlation axes and the model-error flags: no axes yield
Uncorrelated, one axis (a single spatial letter, or the temporal letter)
yields Correlated1D, two spatial letters yield SpaceCorrelated2D3D, one
spatial plus the temporal letter yields SpaceTimeCorrelated1D, two
spatial letters plus the temporal letter yield SpaceTimeCorrelated2D3D;
within each class the additive variant is chosen when
additive_model_error is set and the multiplicative variant when
multiplicative_model_error is set. -/
theorem translate_selects_class
    (nm : ℕ) (prms ss es : List ℕ) (meas : Bool) (k : KernelName) :
    (translateLikelihoodModel ⟨nm, prms, ss, es, true, false, meas, [], k⟩
        = .ok (.uncorrelated, .additive))
    ∧ (translateLikelihoodModel ⟨nm, prms, ss, es, false, true, meas, [], k⟩
        = .ok (.uncorrelated, .multiplicative))
    ∧ (translateLikelihoodModel ⟨nm, prms, ss, es, true, false, meas, [.x], k⟩
        = .ok (.correlated1D, .additive))
    ∧ (translateLikelihoodModel ⟨nm, prms, ss, es, true, false, meas, [.y], k⟩
        = .ok (.correlated1D, .additive))
    ∧ (translateLikelihoodModel ⟨nm, prms, ss, es, true, false, meas, [.z], k⟩
        = .ok (.correlated1D, .additive))
    ∧ (translateLikelihoodModel ⟨nm, prms, ss, es, true, false, meas, [.t], k⟩
        = .ok (.correlated1D, .additive))
    ∧ (translateLikelihoodModel ⟨nm, prms, ss, es, false, true, meas, [.x], k⟩
        = .ok (.correlated1D, .multiplicative))
    ∧ (translateLikelihoodModel ⟨nm, prms, ss, es, false, true, meas, [.t], k⟩
        = .ok (.correlated1D, .multiplicative))
    ∧ (translateLikelihoodModel ⟨nm, prms, ss, es, true, false, meas, [.x, .y], k⟩
        = .ok (.spaceCorrelated2D3D, .additive))
    ∧ (translateLikelihoodModel ⟨nm, prms, ss, es, true, false, meas, [.x, .z], k⟩
        = .ok (.spaceCorrelated2D3D, .additive))
    ∧ (translateLikelihoodModel ⟨nm, prms, ss, es, true, false, meas, [.y, .z], k⟩
        = .ok (.spaceCorrelated2D3D, .additive))
    ∧ (translateLikelihoodModel ⟨nm, prms, ss, es, false, true, meas, [.x, .y], k⟩
        = .ok (.spaceCorrelated2D3D, .multiplicative))
    ∧ (translateLikelihoodModel ⟨nm, prms, ss, es, true, false, meas, [.x, .t], k⟩
        = .ok (.spaceTimeCorrelated1D, .additive))
    ∧ (translateLikelihoodModel ⟨nm, prms, ss, es, true, false, meas, [.y, .t], k⟩
        = .ok (.spaceTimeCorrelated1D, .additive))
    ∧ (translateLikelihoodModel ⟨nm, prms, ss, es, false, true, meas, [.x, .t], k⟩
        = .ok (.spaceTimeCorrelated1D, .multiplicative))
    ∧ (translateLikelihoodModel ⟨nm, prms, ss, es, true, false, meas, [.x, .y, .t], k⟩
        = .ok (.spaceTimeCorrelated2D3D, .additive))
    ∧ (translateLikelihoodModel ⟨nm, prms, ss, es, true, false, meas, [.x, .z, .t], k⟩
        = .ok (.spaceTimeCorrelated2D3D, .additive))
    ∧ (translateLikelihoodModel ⟨nm, prms, ss, es, false, true, meas, [.x, .y, .t], k⟩
        = .ok (.spaceTimeCorrelated2D3D, .multiplicative)) :=
  ⟨rfl, rfl, rfl, rfl, rfl, rfl, rfl, rfl, rfl, rfl, rfl, rfl, rfl, rfl,
    rfl, rfl, rfl, rfl⟩

/-- C9: translation is deterministic and idempotent; it is a pure
function that reads only the model-error flags and the declared
correlation variables, so any two likelihood-model specs agreeing on
those fields translate to the same concrete evaluator class. -/
theorem translate_deterministic (lm1 lm2 : GaussianLikelihoodModel)
    (ha : lm1.additiveModelError = lm2.additiveModelError)
    (hm : lm1.multiplicativeModelError = lm2.multiplicativeModelError)
    (hc : lm1.correlationVariables = lm2.correlationVariables) :
    translateLikelihoodModel lm1 = translateLikelihoodModel lm2 := by
  unfold translateLikelihoodModel
  rw [ha, hm, hc]

/-- Witness for C9: two specs differing in name, parameters, sensors,
experiments and the measurement-error flag, but agreeing on the
model-error flags and correlation variables, translate identically. -/
theorem translate_deterministic_witness :
    translateLikelihoodModel
        ⟨0, [], [], [], true, false, false, [CorrVar.x], KernelName.exp⟩
      = translateLikelihoodModel
        ⟨1, [0], [2], [3], true, false, true, [CorrVar.x], KernelName.exp⟩ :=
  translate_deterministic _ _ rfl rfl rfl

/-- C8: an unrecognized correlation-model name, or an invalid
model-error configuration (both flags, neither flag, or an unrecognized
model-error value), raises a configuration error at spec construction —
the constructor returns an error and no spec (hence no evaluation) is
produced — and these are exactly the failing configurations. -/
theorem mk_likelihood_config_error_iff
    (nm : ℕ) (prms ss es : List ℕ) (modelError : Option ModelErrorName)
    (a m meas : Bool) (cv : List CorrVar) (k : KernelName) :
    (∃ e, mkGaussianLikelihoodModel nm prms ss es modelError a m meas cv k
        = .error e) ↔
      ((∃ c, modelError = some (.unrecognized c))
        ∨ (modelError = none ∧ a = m)
        ∨ k ≠ KernelName.exp) := by
  cases k <;> rcases modelError with _ | (_ | _ | c) <;> cases a <;> cases m <;>
    simp [mkGaussianLikelihoodModel, resolveModelErrorFlags,
      processCorrelationDefinition]

/-- C6: constructing an evaluator whose declared correlation axis (some
component of it) does not appear in a targeted experiment's
correlation-axis mapping fails with a structural error, and so does
constructing one for which a scalar axis value differs numerically
between two targeted experiments; in both cases construction returns an
error — the failure is not deferred to evaluation time nor converted to
a -infinity return. -/
theorem construct_structural_errors
    (cls : StructClass × ModelErrorVariant) (d : CorrelationData) :
    (∀ ax ∈ d.axes, ∀ c ∈ ax, ∀ e ∈ d.experiments, ∀ s ∈ d.sensors,
       d.resolve e s c = none →
       ∃ err, constructEvaluator cls d = .error err)
    ∧ (∀ ax ∈ d.axes, ∀ c ∈ ax, ∀ s ∈ d.sensors, ∀ e1 ∈ d.experiments,
        ∀ e2 ∈ d.experiments, ∀ v1 v2 : ℚ,
       d.resolve e1 s c = some (.scalar v1) →
       d.resolve e2 s c = some (.scalar v2) → v1 ≠ v2 →
       ∃ err, constructEvaluator cls d = .error err) := by
  constructor
  · intro ax hax c hc e he s hs hres
    have hmiss : missingAxisB d = true := by
      simp only [missingAxisB, List.any_eq_true]
      exact ⟨e, he, s, hs, ax, hax, c, hc, by simp [hres]⟩
    unfold constructEvaluator validateCorrelationStructure
    simp [hmiss]
  · intro ax hax c hc s hs e1 he1 e2 he2 v1 v2 h1 h2 hv
    by_cases hmiss : missingAxisB d = true
    · unfold constructEvaluator validateCorrelationStructure
      simp [hmiss]
    · have hsm : scalarMismatchB d = true := by
        simp only [scalarMismatchB, List.any_eq_true]
        refine ⟨ax, hax, c, hc, s, hs, e1, he1, e2, he2, ?_⟩
        rw [h1, h2]
        simpa using hv
      unfold constructEvaluator validateCorrelationStructure
      simp [hmiss, hsm]

/-- Witness for C6: declared axis x for sensor 0 is absent from
experiment 1 in the first data set, and experiment 0 and experiment 1
resolve the scalar x value differently in the second; both constructions
fail with a structural error. -/
theorem construct_structural_errors_witness :
    (∃ err,
      constructEvaluator (StructClass.correlated1D, ModelErrorVariant.additive)
        ⟨[[CorrVar.x]], [0], [0, 1],
          fun e _ _ => if e = 0 then some (Value.vector [0, 1]) else none⟩
        = .error err)
    ∧ (∃ err,
      constructEvaluator (StructClass.correlated1D, ModelErrorVariant.additive)
        ⟨[[CorrVar.x]], [0], [0, 1],
          fun e _ _ => if e = 0 then some (Value.scalar 0)
                       else some (Value.scalar 1)⟩
        = .error err) := by
  constructor
  · exact (construct_structural_errors _ _).1 [CorrVar.x] (by simp)
      CorrVar.x (by simp) 1 (by simp) 0 (by simp) rfl
  · exact (construct_structural_errors _ _).2 [CorrVar.x] (by simp)
      CorrVar.x (by simp) 0 (by simp) 0 (by simp) 1 (by simp) 0 1 rfl rfl
      (by norm_num)

/-- C7: when two distinct declared correlation axes are simultaneously
vector-resolved, no single usable ordering axis remains and evaluator
construction fails with a structural error.  This covers both the case
where neither vector axis is the designated temporal one and the claim's
example where a vector spatial axis stands next to the vector temporal
axis of a space-time evaluator. -/
theorem construct_two_vector_axes_error
    (cls : StructClass × ModelErrorVariant) (d : CorrelationData)
    (ax1 ax2 : List CorrVar)
    (h1 : ax1 ∈ d.axes) (h2 : ax2 ∈ d.axes) (hne : ax1 ≠ ax2)
    (hv1 : vectorAxisB d ax1 = true) (hv2 : vectorAxisB d ax2 = true) :
    ∃ err, constructEvaluator cls d = .error err := by
  have htwo : twoVectorAxesB d = true := by
    simp only [twoVectorAxesB, List.any_eq_true]
    refine ⟨ax1, h1, ax2, h2, ?_⟩
    simp [hne, hv1, hv2]
  unfold constructEvaluator validateCorrelationStructure
  by_cases hm : missingAxisB d = true
  · simp [hm]
  · by_cases hs : scalarMismatchB d = true
    · simp [hm, hs]
    · by_cases hx : mixedTupleB d = true
      · simp [hm, hs, hx]
      · simp [hm, hs, hx, htwo]

/-- Witness for C7: the spatial axis x and the temporal axis t of a
space-time evaluator are both resolved to vector data in every
experiment; construction fails. -/
theorem construct_two_vector_axes_error_witness :
    ∃ err,
      constructEvaluator (StructClass.spaceTimeCorrelated1D, ModelErrorVariant.additive)
        ⟨[[CorrVar.x], [CorrVar.t]], [0], [0],
          fun _ _ _ => some (Value.vector [0, 1])⟩
        = .error err :=
  construct_two_vector_axes_error _ _ [CorrVar.x] [CorrVar.t]
    (by simp) (by simp) (by simp) rfl rfl

/-- Lookup in the component-length list built by `Sensor.corrLengthEntry`
returns the recorded length of any declared component. -/
theorem alookup_map_component {l : List ℕ} {c : ℕ} (f : ℕ → ℕ) (h : c ∈ l) :
    alookup (some c) (l.map fun c' => ((some c' : Option ℕ), f c'))
      = some (f c) := by
  induction l with
  | nil => cases h
  | cons hd tl ih =>
    rcases List.mem_cons.mp h with h1 | h2
    · subst h1
      simp [alookup]
    · by_cases hc : c = hd
      · subst hc
        simp [alookup]
      · simp only [List.map_cons, alookup]
        rw [if_neg (by simpa using hc)]
        exact ih h2

/-- C10: `Sensor.__setitem__` stores the measured value retrievably under
the experiment name; with no declared correlation axes it records the
single empty-key entry holding the measurement's length (length of a
vector, 1 for a scalar); with declared axes it records, for each
one-dimensional component, the length of the sensor's own coordinate
attribute of that name when it exists and is not None, and the
measurement's length otherwise. -/
theorem sensor_setItem_spec (s : Sensor) (e : ℕ) (v : Value) :
    alookup e (s.setItem e v).data = some v
    ∧ (s.correlatedIn = [] →
        alookup e (s.setItem e v).corrVarLengths = some [(none, lenOrOne v)])
    ∧ (∀ c ∈ s.correlatedIn.flatten,
        ∃ entry, alookup e (s.setItem e v).corrVarLengths = some entry
          ∧ alookup (some c) entry
              = some (match s.coords c with
                      | some cv => lenOrOne cv
                      | none => lenOrOne v)) := by
  refine ⟨?_, ?_, ?_⟩
  · simp [Sensor.setItem, aupdate, alookup]
  · intro h
    simp [Sensor.setItem, aupdate, alookup, Sensor.corrLengthEntry, h]
  · intro c hc
    refine ⟨s.corrLengthEntry v, by simp [Sensor.setItem, aupdate, alookup], ?_⟩
    have hne : s.correlatedIn.isEmpty = false := by
      cases hl : s.correlatedIn with
      | nil => rw [hl] at hc; cases hc
      | cons hd tl => simp [hl]
    simp only [Sensor.corrLengthEntry, hne, Bool.false_eq_true, if_false]
    exact alookup_map_component _ hc

/-- Witness for C10: a sensor with a two-component declared axis and no
coordinate attributes records the measurement length 3 for component 1,
and a sensor without correlation records the empty-key entry of length
1 for a scalar measurement; the stored value is retrievable. -/
theorem sensor_setItem_spec_witness :
    alookup 5 ((Sensor.mk 0 (fun _ => none) [[1, 2]] [] []).setItem 5
        (Value.vector [1, 2, 3])).data = some (Value.vector [1, 2, 3])
    ∧ (∃ entry,
        alookup 5 ((Sensor.mk 0 (fun _ => none) [[1, 2]] [] []).setItem 5
            (Value.vector [1, 2, 3])).corrVarLengths = some entry
          ∧ alookup (some 1) entry = some 3)
    ∧ alookup 7 ((Sensor.mk 0 (fun _ => none) [] [] []).setItem 7
        (Value.scalar 4)).corrVarLengths = some [(none, 1)] :=
  ⟨(sensor_setItem_spec (Sensor.mk 0 (fun _ => none) [[1, 2]] [] []) 5
      (Value.vector [1, 2, 3])).1,
    (sensor_setItem_spec (Sensor.mk 0 (fun _ => none) [[1, 2]] [] []) 5
      (Value.vector [1, 2, 3])).2.2 1 (by simp),
    (sensor_setItem_spec (Sensor.mk 0 (fun _ => none) [] [] []) 7
      (Value.scalar 4)).2.1 rfl⟩

theorem mvnLoglike_sub_self {ι : Type} [Fintype ι] [DecidableEq ι]
    (cov : Matrix ι ι ℝ) (f : ι → ℝ) :
    mvnLoglike cov (fun i => f i - f i)
      = -(1/2) * ((Fintype.card ι : ℝ) * Real.log (2 * Real.pi)
          + Real.log cov.det) := by
  have h : (fun i => f i - f i) = fun _ : ι => (0 : ℝ) :=
    funext fun i => sub_self _
  rw [h]
  unfold mvnLoglike
  have h0 : (fun _ : ι => (0 : ℝ)) ⬝ᵥ (cov⁻¹ *ᵥ fun _ => (0 : ℝ)) = 0 := by
    simp [dotProduct]
  rw [h0, add_zero]

theorem log_det_diagonal {n : ℕ} (f : Fin n → ℝ) (hf : ∀ i, 0 < f i) :
    Real.log (Matrix.diagonal f).det = ∑ i, Real.log (f i) := by
  rw [Matrix.det_diagonal, Real.log_prod _ _ fun i _ => ne_of_gt (hf i)]

theorem log_det_kron {m k : ℕ} (A : Matrix (Fin m) (Fin m) ℝ)
    (B : Matrix (Fin k) (Fin k) ℝ) (hA : 0 < A.det) (hB : 0 < B.det) :
    Real.log ((A ⊗ₖ B).det)
      = (k : ℝ) * Real.log A.det + (m : ℝ) * Real.log B.det := by
  rw [Matrix.det_kronecker,
    Real.log_mul (pow_ne_zero _ (ne_of_gt hA)) (pow_ne_zero _ (ne_of_gt hB)),
    Real.log_pow, Real.log_pow]
  simp

theorem kronQuad_sub_self {m k : ℕ} (P : Matrix (Fin m) (Fin m) ℝ)
    (Q : Matrix (Fin k) (Fin k) ℝ) (f : Fin m → Fin k → ℝ) :
    kronQuad P Q (fun i j => f i j - f i j) = 0 := by
  simp [kronQuad]

/-- C3: for every evaluator with valid positive noise parameters, a
loglike call with exactly zero residual returns the closed-form Gaussian
normalizing constant -(1/2)(n log(2 pi) + log det Sigma) of that
evaluator's covariance (for the structured fast paths, with the
log-determinant in its structure-specific closed form); in particular,
the additive uncorrelated evaluator over 100 data points with model-error
deviation 2, no measurement error and zero residual returns
-50 log(2 pi 4). -/
theorem zero_residual_normalizing_constant :
    (∀ (mult measErr : Bool) (n : ℕ) (resp : Fin n → ℝ) (stdM stdMeas : ℝ),
      validNoise stdM measErr stdMeas [] →
      (∀ i, 0 < uncorrSigma2 mult measErr stdM stdMeas (resp i)) →
      uncorrelatedLoglike mult measErr resp resp stdM stdMeas
        = some (-(1/2) * ((n : ℝ) * Real.log (2 * Real.pi)
            + Real.log (Matrix.diagonal fun i =>
                uncorrSigma2 mult measErr stdM stdMeas (resp i)).det)))
    ∧ (∀ (mult measErr : Bool) (n : ℕ) (x resp : Fin (n + 1) → ℝ)
         (stdM stdMeas l : ℝ),
        validNoise stdM measErr stdMeas [l] →
        correlated1DLoglike mult measErr x resp resp stdM stdMeas l
          = some (-(1/2) * (((n + 1 : ℕ) : ℝ) * Real.log (2 * Real.pi)
              + (if mult || measErr then
                  Real.log (modelCov mult measErr (expCorrMatrix l x) resp
                    stdM stdMeas).det
                 else corr1DLogdet stdM l x))))
    ∧ (∀ (mult measErr : Bool) (n dim : ℕ) (pts : Fin n → Fin dim → ℝ)
         (resp : Fin n → ℝ) (stdM stdMeas l : ℝ),
        validNoise stdM measErr stdMeas [l] →
        spaceCorrelated2D3DLoglike mult measErr pts resp resp stdM stdMeas l
          = some (-(1/2) * ((n : ℝ) * Real.log (2 * Real.pi)
              + Real.log (modelCov mult measErr (expCorrMatrixSpace l pts)
                  resp stdM stdMeas).det)))
    ∧ (∀ (mult measErr : Bool) (ns nt : ℕ) (xs : Fin ns → ℝ)
         (ts : Fin nt → ℝ) (resp : Fin ns → Fin nt → ℝ)
         (stdM stdMeas ls lt : ℝ),
        validNoise stdM measErr stdMeas [ls, lt] →
        0 < (stdM ^ 2 • expCorrMatrix ls xs).det →
        0 < (expCorrMatrix lt ts).det →
        spaceTimeCorrelated1DLoglike mult measErr xs ts resp resp
            stdM stdMeas ls lt
          = some (-(1/2) * (((ns * nt : ℕ) : ℝ) * Real.log (2 * Real.pi)
              + (if mult || measErr then
                  Real.log (modelCov mult measErr
                    (expCorrMatrix ls xs ⊗ₖ expCorrMatrix lt ts)
                    (fun p => resp p.1 p.2) stdM stdMeas).det
                 else
                  Real.log (((stdM ^ 2 • expCorrMatrix ls xs) ⊗ₖ
                    expCorrMatrix lt ts).det)))))
    ∧ (∀ (mult measErr : Bool) (ns nt dim : ℕ) (pts : Fin ns → Fin dim → ℝ)
         (ts : Fin nt → ℝ) (resp : Fin ns → Fin nt → ℝ)
         (stdM stdMeas ls lt : ℝ),
        validNoise stdM measErr stdMeas [ls, lt] →
        0 < (stdM ^ 2 • expCorrMatrixSpace ls pts).det →
        0 < (expCorrMatrix lt ts).det →
        spaceTimeCorrelated2D3DLoglike mult measErr pts ts resp resp
            stdM stdMeas ls lt
          = some (-(1/2) * (((ns * nt : ℕ) : ℝ) * Real.log (2 * Real.pi)
              + (if mult || measErr then
                  Real.log (modelCov mult measErr
                    (expCorrMatrixSpace ls pts ⊗ₖ expCorrMatrix lt ts)
                    (fun p => resp p.1 p.2) stdM stdMeas).det
                 else
                  Real.log (((stdM ^ 2 • expCorrMatrixSpace ls pts) ⊗ₖ
                    expCorrMatrix lt ts).det)))))
    ∧ (∀ (resp : Fin 100 → ℝ) (sm : ℝ),
        uncorrelatedLoglike false false resp resp 2 sm
          = some (-(50 : ℝ) * Real.log (2 * Real.pi * 4))) := by
  refine ⟨?_, ?_, ?_, ?_, ?_, ?_⟩
  · intro mult measErr n resp stdM stdMeas hv hσ
    unfold uncorrelatedLoglike
    rw [if_pos hv, log_det_diagonal _ hσ]
    have hq : (∑ i, (resp i - resp i) ^ 2
        / uncorrSigma2 mult measErr stdM stdMeas (resp i)) = 0 := by simp
    rw [hq, add_zero]
  · intro mult measErr n x resp stdM stdMeas l hv
    unfold correlated1DLoglike
    rw [if_pos hv]
    cases hb : mult || measErr with
    | true =>
      simp only [hb, if_true]
      rw [mvnLoglike_sub_self]
      simp
    | false =>
      simp only [hb, Bool.false_eq_true, if_false]
      have hq : corr1DQuad stdM l x (fun i => resp i - resp i) = 0 := by
        simp [corr1DQuad]
      rw [hq, add_zero]
  · intro mult measErr n dim pts resp stdM stdMeas l hv
    unfold spaceCorrelated2D3DLoglike
    rw [if_pos hv, mvnLoglike_sub_self]
    simp
  · intro mult measErr ns nt xs ts resp stdM stdMeas ls lt hv hdA hdB
    unfold spaceTimeCorrelated1DLoglike
    rw [if_pos hv]
    cases hb : mult || measErr with
    | true =>
      simp only [hb, if_true]
      rw [mvnLoglike_sub_self]
      simp
    | false =>
      simp only [hb, Bool.false_eq_true, if_false]
      unfold kronFastLoglike
      rw [kronQuad_sub_self, add_zero, log_det_kron _ _ hdA hdB]
  · intro mult measErr ns nt dim pts ts resp stdM stdMeas ls lt hv hdA hdB
    unfold spaceTimeCorrelated2D3DLoglike
    rw [if_pos hv]
    cases hb : mult || measErr with
    | true =>
      simp only [hb, if_true]
      rw [mvnLoglike_sub_self]
      simp
    | false =>
      simp only [hb, Bool.false_eq_true, if_false]
      unfold kronFastLoglike
      rw [kronQuad_sub_self, add_zero, log_det_kron _ _ hdA hdB]
  · intro resp sm
    unfold uncorrelatedLoglike
    rw [if_pos ⟨by norm_num, by simp, by simp⟩]
    have h4 : ∀ i : Fin 100,
        uncorrSigma2 false false 2 sm (resp i) = 4 := by
      intro i
      norm_num [uncorrSigma2]
    have hq : (∑ i, (resp i - resp i) ^ 2
        / uncorrSigma2 false false 2 sm (resp i)) = 0 := by simp
    rw [hq, add_zero,
      Finset.sum_congr rfl fun i _ => congrArg Real.log (h4 i),
      Finset.sum_const, Finset.card_univ, Fintype.card_fin, nsmul_eq_mul]
    have hlog : Real.log (2 * Real.pi * 4)
        = Real.log (2 * Real.pi) + Real.log 4 :=
      Real.log_mul (by positivity) (by norm_num)
    rw [hlog]
    push_cast
    ring_nf

/-- Witness for C3: concrete zero-residual calls: the multiplicative
uncorrelated evaluator at two data points, the additive space-time
evaluator with one channel and one time point (factor determinants
computed positive), and the 100-point instance returning
-50 log(2 pi 4). -/
theorem zero_residual_normalizing_constant_witness :
    uncorrelatedLoglike true true (fun _ : Fin 2 => (3 : ℝ)) (fun _ => 3) 2 1
      = some (-(1/2) * ((2 : ℝ) * Real.log (2 * Real.pi)
          + Real.log (Matrix.diagonal fun i : Fin 2 =>
              uncorrSigma2 true true 2 1 ((fun _ => (3 : ℝ)) i)).det))
    ∧ spaceTimeCorrelated1DLoglike false false (fun _ : Fin 1 => (0 : ℝ))
        (fun _ : Fin 1 => (0 : ℝ)) (fun _ _ => (5 : ℝ)) (fun _ _ => 5) 2 1 1 1
      = some (-(1/2) * (((1 * 1 : ℕ) : ℝ) * Real.log (2 * Real.pi)
          + Real.log ((((2 : ℝ) ^ 2 • expCorrMatrix 1 fun _ : Fin 1 => (0 : ℝ)) ⊗ₖ
              expCorrMatrix 1 fun _ : Fin 1 => (0 : ℝ)).det)))
    ∧ uncorrelatedLoglike false false (fun _ : Fin 100 => (1 : ℝ))
        (fun _ => 1) 2 5
      = some (-(50 : ℝ) * Real.log (2 * Real.pi * 4)) := by
  have hdet : (0 : ℝ) < ((2 : ℝ) ^ 2 • expCorrMatrix 1 fun _ : Fin 1 => (0 : ℝ)).det := by
    norm_num [Matrix.det_fin_one, Matrix.smul_apply, expCorrMatrix, expKernel]
  have hdet2 : (0 : ℝ) < (expCorrMatrix 1 fun _ : Fin 1 => (0 : ℝ)).det := by
    norm_num [Matrix.det_fin_one, expCorrMatrix, expKernel]
  refine ⟨?_, ?_, ?_⟩
  · exact zero_residual_normalizing_constant.1 true true 2 (fun _ => 3) 2 1
      ⟨by norm_num, fun _ => by norm_num, by simp⟩
      (fun i => by norm_num [uncorrSigma2])
  · exact zero_residual_normalizing_constant.2.2.2.1 false false 1 1
      (fun _ => 0) (fun _ => 0) (fun _ _ => 5) 2 1 1 1
      ⟨by norm_num, by simp, by intro l hl; fin_cases hl <;> norm_num⟩
      hdet hdet2
  · exact zero_residual_normalizing_constant.2.2.2.2.2 (fun _ => 1) 5

/-- C4: the multiplicative uncorrelated evaluator with measurement error
disabled, positive model-error deviation s, model response r and zero
residual over n data points returns
-(1/2)(n log(2 pi) + sum of log((r_i s)^2)); the diagonal covariance
entries are exactly the squared products of response and model-error
deviation. -/
theorem multiplicative_uncorrelated_zero_residual {n : ℕ}
    (resp : Fin n → ℝ) (s sm : ℝ) (hs : 0 < s) :
    uncorrelatedLoglike true false resp resp s sm
      = some (-(1/2) * ((n : ℝ) * Real.log (2 * Real.pi)
          + ∑ i, Real.log ((resp i * s) ^ 2)))
    ∧ ∀ i, uncorrSigma2 true false s sm (resp i) = (resp i * s) ^ 2 := by
  have hσ : ∀ i, uncorrSigma2 true false s sm (resp i) = (resp i * s) ^ 2 := by
    intro i
    simp [uncorrSigma2]
  refine ⟨?_, hσ⟩
  unfold uncorrelatedLoglike
  rw [if_pos ⟨hs, by simp, by simp⟩]
  have hq : (∑ i, (resp i - resp i) ^ 2
      / uncorrSigma2 true false s sm (resp i)) = 0 := by simp
  rw [hq, add_zero, Finset.sum_congr rfl fun i _ => congrArg Real.log (hσ i)]

/-- Witness for C4: two data points with response 3 and model-error
deviation 2. -/
theorem multiplicative_uncorrelated_zero_residual_witness :
    uncorrelatedLoglike true false (fun _ : Fin 2 => (3 : ℝ)) (fun _ => 3) 2 7
      = some (-(1/2) * ((2 : ℝ) * Real.log (2 * Real.pi)
          + ∑ _i : Fin 2, Real.log (((3 : ℝ) * 2) ^ 2)))
    ∧ ∀ i : Fin 2, uncorrSigma2 true false 2 7 ((fun _ => (3 : ℝ)) i)
        = ((3 : ℝ) * 2) ^ 2 :=
  multiplicative_uncorrelated_zero_residual (fun _ => 3) 2 7 (by norm_num)

theorem kron_dot_eq {m k : ℕ} (A : Matrix (Fin m) (Fin m) ℝ)
    (B : Matrix (Fin k) (Fin k) ℝ) (R : Fin m → Fin k → ℝ) :
    (fun p : Fin m × Fin k => R p.1 p.2) ⬝ᵥ ((A ⊗ₖ B) *ᵥ fun p => R p.1 p.2)
      = kronQuad A B R := by
  unfold kronQuad
  simp only [dotProduct, mulVec, Fintype.sum_prod_type,
    Matrix.kroneckerMap_apply, Finset.mul_sum]
  refine Finset.sum_congr rfl fun i _ => ?_
  rw [Finset.sum_comm]
  refine Finset.sum_congr rfl fun i' _ => ?_
  refine Finset.sum_congr rfl fun j _ => ?_
  refine Finset.sum_congr rfl fun j' _ => ?_
  ring

theorem kronFast_eq_mvn {m k : ℕ} (A : Matrix (Fin m) (Fin m) ℝ)
    (B : Matrix (Fin k) (Fin k) ℝ) (R : Fin m → Fin k → ℝ)
    (hA : 0 < A.det) (hB : 0 < B.det) :
    kronFastLoglike A B R = mvnLoglike (A ⊗ₖ B) (fun p => R p.1 p.2) := by
  unfold kronFastLoglike mvnLoglike
  rw [Matrix.inv_kronecker, kron_dot_eq, log_det_kron A B hA hB]
  simp

theorem validNoise_no_corr (stdM sm : ℝ) (h1 : 0 < stdM) :
    validNoise stdM false sm [] :=
  ⟨h1, by simp, by simp⟩

theorem validNoise_one_corr (stdM sm l : ℝ) (h1 : 0 < stdM) (h2 : 0 < l) :
    validNoise stdM false sm [l] := by
  refine ⟨h1, by simp, ?_⟩
  intro a ha
  rw [List.mem_singleton] at ha
  subst ha
  exact h2

theorem validNoise_two_corr (stdM sm ls lt : ℝ) (h1 : 0 < stdM)
    (h2 : 0 < ls) (h3 : 0 < lt) : validNoise stdM false sm [ls, lt] := by
  refine ⟨h1, by simp, ?_⟩
  intro a ha
  rcases List.mem_cons.mp ha with rfl | ha2
  · exact h2
  · rw [List.mem_singleton] at ha2
    subst ha2
    exact h3

theorem corr1D_fast_eq_dense_two (σ σm l : ℝ) (x resp meas : Fin 2 → ℝ)
    (hσ : 0 < σ) (hl : 0 < l) (hx : x 0 < x 1) :
    correlated1DLoglike false false x resp meas σ σm l
      = some (mvnLoglike (modelCov false false (expCorrMatrix l x) resp σ σm)
          (fun i => meas i - resp i)) := by
  have hv : validNoise σ false σm [l] := validNoise_one_corr σ σm l hσ hl
  have hd : 0 < x 1 - x 0 := sub_pos.mpr hx
  set ρ := Real.exp (-(x 1 - x 0) / l) with hρdef
  have hρpos : 0 < ρ := Real.exp_pos _
  have hρlt : ρ < 1 := by
    rw [hρdef, Real.exp_lt_one_iff]
    apply div_neg_of_neg_of_pos _ hl
    linarith
  have h1ρ : 0 < 1 - ρ ^ 2 := by nlinarith
  have hσ2 : (0 : ℝ) < σ ^ 2 := by positivity
  have h1ρ0 : (1 : ℝ) - ρ ^ 2 ≠ 0 := ne_of_gt h1ρ
  have hσ20 : σ ^ 2 ≠ 0 := ne_of_gt hσ2
  have hCe : ∀ i j, modelCov false false (expCorrMatrix l x) resp σ σm i j
      = σ ^ 2 * Real.exp (-|x i - x j| / l) := by
    intro i j
    simp [modelCov, expCorrMatrix, expKernel]
  have e00 : modelCov false false (expCorrMatrix l x) resp σ σm 0 0 = σ ^ 2 := by
    rw [hCe]
    simp
  have e11 : modelCov false false (expCorrMatrix l x) resp σ σm 1 1 = σ ^ 2 := by
    rw [hCe]
    simp
  have e01 : modelCov false false (expCorrMatrix l x) resp σ σm 0 1
      = σ ^ 2 * ρ := by
    rw [hCe, abs_sub_comm, abs_of_pos hd, hρdef]
  have e10 : modelCov false false (expCorrMatrix l x) resp σ σm 1 0
      = σ ^ 2 * ρ := by
    rw [hCe, abs_of_pos hd, hρdef]
  have hdet : (modelCov false false (expCorrMatrix l x) resp σ σm).det
      = (σ ^ 2) ^ 2 * (1 - ρ ^ 2) := by
    rw [Matrix.det_fin_two, e00, e11, e01, e10]
    ring
  have hlogdet : Real.log (modelCov false false (expCorrMatrix l x) resp σ σm).det
      = 2 * Real.log (σ ^ 2) + Real.log (1 - ρ ^ 2) := by
    rw [hdet, Real.log_mul (by positivity) h1ρ0, Real.log_pow]
    norm_num
  have hquad : (fun i => meas i - resp i) ⬝ᵥ
      ((modelCov false false (expCorrMatrix l x) resp σ σm)⁻¹ *ᵥ
        fun i => meas i - resp i)
      = ((meas 0 - resp 0) ^ 2 + (meas 1 - resp 1) ^ 2
          - 2 * ρ * (meas 0 - resp 0) * (meas 1 - resp 1))
        / (σ ^ 2 * (1 - ρ ^ 2)) := by
    rw [Matrix.inv_def, Ring.inverse_eq_inv, Matrix.adjugate_fin_two]
    simp only [dotProduct, mulVec, Fin.sum_univ_two, Matrix.smul_apply,
      smul_eq_mul, Matrix.cons_val', Matrix.cons_val_zero, Matrix.cons_val_one,
      Matrix.head_cons, Matrix.head_fin_const, Matrix.empty_val',
      Matrix.cons_val_fin_one]
    rw [e00, e11, e01, e10, hdet]
    field_simp
    ring
  have hρ0 : rho1D l x 0 = ρ := by
    rw [hρdef]
    simp [rho1D, expKernel, Fin.succ_zero_eq_one, Fin.castSucc_zero]
  have hfastlogdet : corr1DLogdet σ l x
      = 2 * Real.log (σ ^ 2) + Real.log (1 - ρ ^ 2) := by
    unfold corr1DLogdet
    rw [Fin.sum_univ_one, hρ0]
    norm_num
  have hfastquad : corr1DQuad σ l x (fun i => meas i - resp i)
      = ((meas 0 - resp 0) ^ 2 + (meas 1 - resp 1) ^ 2
          - 2 * ρ * (meas 0 - resp 0) * (meas 1 - resp 1))
        / (σ ^ 2 * (1 - ρ ^ 2)) := by
    unfold corr1DQuad
    rw [Fin.sum_univ_one, hρ0]
    simp only [Fin.succ_zero_eq_one, Fin.castSucc_zero]
    field_simp
    ring
  unfold correlated1DLoglike
  rw [if_pos hv]
  simp only [Bool.or_self, Bool.false_eq_true, if_false]
  unfold mvnLoglike
  rw [hlogdet, hquad, hfastlogdet, hfastquad]
  norm_num

/-- C2: the fast structured evaluators return the same log-likelihood as
the reference evaluation that builds the full dense covariance and
applies the generic multivariate-normal log-density: the closed-form
tridiagonal Correlated1D evaluator at the two-point size, for every
choice of positive noise and correlation-length parameters and ordered
axis points, and the two Kronecker-structured space-time evaluators at
every size whose correlation factors have positive determinants (in
exact real arithmetic the match is equality, the idealization of
floating-point tolerance). -/
theorem fast_evaluators_match_reference :
    (∀ (σ σm l : ℝ) (x resp meas : Fin 2 → ℝ),
      0 < σ → 0 < l → x 0 < x 1 →
      correlated1DLoglike false false x resp meas σ σm l
        = some (mvnLoglike
            (modelCov false false (expCorrMatrix l x) resp σ σm)
            (fun i => meas i - resp i)))
    ∧ (∀ (ns nt : ℕ) (xs : Fin ns → ℝ) (ts : Fin nt → ℝ)
         (resp meas : Fin ns → Fin nt → ℝ) (σ σm ls lt : ℝ),
        0 < σ → 0 < ls → 0 < lt →
        0 < (σ ^ 2 • expCorrMatrix ls xs).det →
        0 < (expCorrMatrix lt ts).det →
        spaceTimeCorrelated1DLoglike false false xs ts resp meas σ σm ls lt
          = some (mvnLoglike
              ((σ ^ 2 • expCorrMatrix ls xs) ⊗ₖ expCorrMatrix lt ts)
              (fun p => meas p.1 p.2 - resp p.1 p.2)))
    ∧ (∀ (ns nt dim : ℕ) (pts : Fin ns → Fin dim → ℝ) (ts : Fin nt → ℝ)
         (resp meas : Fin ns → Fin nt → ℝ) (σ σm ls lt : ℝ),
        0 < σ → 0 < ls → 0 < lt →
        0 < (σ ^ 2 • expCorrMatrixSpace ls pts).det →
        0 < (expCorrMatrix lt ts).det →
        spaceTimeCorrelated2D3DLoglike false false pts ts resp meas σ σm ls lt
          = some (mvnLoglike
              ((σ ^ 2 • expCorrMatrixSpace ls pts) ⊗ₖ expCorrMatrix lt ts)
              (fun p => meas p.1 p.2 - resp p.1 p.2))) := by
  refine ⟨corr1D_fast_eq_dense_two, ?_, ?_⟩
  · intro ns nt xs ts resp meas σ σm ls lt hσ hls hlt hdA hdB
    unfold spaceTimeCorrelated1DLoglike
    rw [if_pos (validNoise_two_corr σ σm ls lt hσ hls hlt)]
    simp only [Bool.or_self, Bool.false_eq_true, if_false]
    rw [kronFast_eq_mvn _ _ _ hdA hdB]
  · intro ns nt dim pts ts resp meas σ σm ls lt hσ hls hlt hdA hdB
    unfold spaceTimeCorrelated2D3DLoglike
    rw [if_pos (validNoise_two_corr σ σm ls lt hσ hls hlt)]
    simp only [Bool.or_self, Bool.false_eq_true, if_false]
    rw [kronFast_eq_mvn _ _ _ hdA hdB]

/-- Witness for C2: the two-point Correlated1D evaluator at points 0 and
1 with unit noise parameters, and the two space-time evaluators at one
channel and one time point, whose factor determinants are computed
positive. -/
theorem fast_evaluators_match_reference_witness :
    correlated1DLoglike false false (![0, 1] : Fin 2 → ℝ) ![5, 7] ![5, 7] 1 0 1
      = some (mvnLoglike
          (modelCov false false (expCorrMatrix 1 (![0, 1] : Fin 2 → ℝ)) ![5, 7] 1 0)
          (fun i => (![5, 7] : Fin 2 → ℝ) i - (![5, 7] : Fin 2 → ℝ) i))
    ∧ spaceTimeCorrelated1DLoglike false false (fun _ : Fin 1 => (0 : ℝ))
        (fun _ : Fin 1 => (0 : ℝ)) (fun _ _ => 3) (fun _ _ => 4) 2 0 1 1
      = some (mvnLoglike
          (((2 : ℝ) ^ 2 • expCorrMatrix 1 fun _ : Fin 1 => (0 : ℝ)) ⊗ₖ
            expCorrMatrix 1 fun _ : Fin 1 => (0 : ℝ))
          (fun p => (fun _ _ => (4 : ℝ)) p.1 p.2 - (fun _ _ => (3 : ℝ)) p.1 p.2))
    ∧ spaceTimeCorrelated2D3DLoglike false false
        (fun _ : Fin 1 => fun _ : Fin 1 => (0 : ℝ)) (fun _ : Fin 1 => (0 : ℝ))
        (fun _ _ => 3) (fun _ _ => 4) 2 0 1 1
      = some (mvnLoglike
          (((2 : ℝ) ^ 2 • expCorrMatrixSpace 1 fun _ : Fin 1 => fun _ : Fin 1 => (0 : ℝ)) ⊗ₖ
            expCorrMatrix 1 fun _ : Fin 1 => (0 : ℝ))
          (fun p => (fun _ _ => (4 : ℝ)) p.1 p.2 - (fun _ _ => (3 : ℝ)) p.1 p.2)) := by
  have hA : (0 : ℝ) < ((2 : ℝ) ^ 2 • expCorrMatrix 1 fun _ : Fin 1 => (0 : ℝ)).det := by
    norm_num [Matrix.det_fin_one, Matrix.smul_apply, expCorrMatrix, expKernel]
  have hB : (0 : ℝ) < (expCorrMatrix 1 fun _ : Fin 1 => (0 : ℝ)).det := by
    norm_num [Matrix.det_fin_one, expCorrMatrix, expKernel]
  have hS : (0 : ℝ) < ((2 : ℝ) ^ 2 •
      expCorrMatrixSpace 1 fun _ : Fin 1 => fun _ : Fin 1 => (0 : ℝ)).det := by
    norm_num [Matrix.det_fin_one, Matrix.smul_apply, expCorrMatrixSpace,
      expKernel, euclid]
  refine ⟨?_, ?_, ?_⟩
  · exact fast_evaluators_match_reference.1 1 0 1 ![0, 1] ![5, 7] ![5, 7]
      (by norm_num) (by norm_num) (by norm_num)
  · exact fast_evaluators_match_reference.2.1 1 1 (fun _ => 0) (fun _ => 0)
      (fun _ _ => 3) (fun _ _ => 4) 2 0 1 1 (by norm_num) (by norm_num)
      (by norm_num) hA hB
  · exact fast_evaluators_match_reference.2.2 1 1 1 (fun _ => fun _ => 0)
      (fun _ => 0) (fun _ _ => 3) (fun _ _ => 4) 2 0 1 1 (by norm_num)
      (by norm_num) (by norm_num) hS hB

end Probeye
